import Mathlib

/-!
Shallow embedding of the image-generation core of the code-snippet-generator
repository: the `ContentGenerator` component (local-filesystem variant,
S3/remote variant, and the older inline variant embedded in the HTTP route
file), the S3 URL construction, the remote constructor's configuration check,
and the HTTP route's image-reference extraction.

External effects (subprocess spawn, directory listing, file copy / S3 upload)
are modelled by an explicit environment record describing their outcomes, and
each generate operation is a pure function from that environment to an outcome
record carrying the produced command line, the result (reference or error
message), the list of workspace files handed to the persistence step, and
whether the scratch workspace was removed before control returned.
-/

/-- JS string truthiness: `s || t` treats the empty string as absent.
`jsStr` normalises an optional string to `some v` exactly when the JS value
is truthy (present and non-empty). -/
def jsStr (a : Option String) : Option String :=
  match a with
  | some v => if v = "" then none else some v
  | none => none

/-- Scratch directory name produced by `fs.mkdtempSync(path.join(os.tmpdir(), 'code-'))`:
the temp base, the literal segment `/code-`, and a random suffix. -/
def tempDirName (base rnd : String) : String := base ++ "/code-" ++ rnd

/-- Command line built by the local variant (`part_000`):
`['carbon-now', tempFile, '--save-to', tempDir]`, then, when an explicit or
constructor preset is truthy, `'-p'` and
`preset_name || this.preset_name || 'dracula'`. -/
def buildCodeCommandLocal (tempFile tempDir : String) (arg ctor : Option String) :
    List String :=
  let command := ["carbon-now", tempFile, "--save-to", tempDir]
  if (jsStr arg).isSome || (jsStr ctor).isSome then
    command ++ ["-p", ((jsStr arg).orElse fun _ => jsStr ctor).getD "dracula"]
  else command

/-- Command line built by the remote variant (`part_002`): same base, but
`const selectedPreset = 'openai'` is hard-coded (the fallback chain is
commented out in the source), and a `--config` flag is always appended. -/
def buildCodeCommandRemote (tempFile tempDir cwd : String) (arg ctor : Option String) :
    List String :=
  let command := ["carbon-now", tempFile, "--save-to", tempDir]
  let command :=
    if (jsStr arg).isSome || (jsStr ctor).isSome then command ++ ["-p", "openai"]
    else command
  command ++ ["--config", cwd ++ "/src/app/api/code_snippet_generator/carbon-now.json"]

/-- URL returned by `uploadToS3` in the remote variant: CDN URL when the CDN
domain is truthy, otherwise the default S3 URL, both over the key
`generated-images/<fileName>`. -/
def uploadToS3Url (bucketName cdnDomain fileName : String) : String :=
  let key := "generated-images/" ++ fileName
  if cdnDomain ≠ "" then "https://" ++ cdnDomain ++ "/" ++ key
  else "https://" ++ bucketName ++ ".s3.amazonaws.com/" ++ key

/-- Outcomes of the external effects performed by one `generateCodeImage`
call: whether `spawnSync` failed to launch (`result.error`), the exit status
otherwise, what `readdirSync(tempDir)` returns after the render, and whether
the persilstence step (file copy or S3 upload) raises. -/
structure RenderEnv where
  launchError : Option String
  exitStatus : Int
  dirListing : List String
  persistError : Option String

/-- Outcomes of the external effects of one `generateDiagramImage` call:
whether the synchronous setup (mkdtemp / file writes) raises, the `mmdc`
exit code, and whether the persistence step raises. -/
structure DiagramEnv where
  setupError : Option String
  exitCode : Int
  persistError : Option String

/-- Result of a synchronous generate call: the command line it built, the
returned reference or thrown error message, the workspace files passed to the
persistence step (in order), and whether the workspace directory was removed
before control returned to the caller. -/
structure CodeGenOutcome where
  command : List String
  result : Except String String
  persistCalls : List String
  tempDirRemoved : Bool

/-- Result of a promise-based generate call: `none` means the promise never
settles (an exception escaped inside the `close` callback). -/
structure AsyncOutcome where
  result : Option (Except String String)
  persistCalls : List String
  tempDirRemoved : Bool

/-- The PNG files found by `readdirSync(tempDir).filter(f => f.endsWith('.png'))`.
JS `f.endsWith('.png')` is embedded as a suffix test on the character list. -/
def pngFiles (listing : List String) : List String :=
  listing.filter fun f => ".png".data.isSuffixOf f.data

/-- Embedding of `generateCodeImage` from the local variant (`part_000`).
Every throw inside the `try` block is caught and re-thrown as
`Failed to generate code snapshot: <message>`; `fs.rmSync(tempDir)` is
executed only after a successful copy, so no error path removes the
workspace. -/
def generateCodeImageLocal (uuid base rnd : String) (arg ctor : Option String)
    (env : RenderEnv) : CodeGenOutcome :=
  let tempDir := tempDirName base rnd
  let tempFile := tempDir ++ "/code_snippet.ts"
  let command := buildCodeCommandLocal tempFile tempDir arg ctor
  match env.launchError with
  | some m => ⟨command, .error ("Failed to generate code snapshot: " ++ m), [], false⟩
  | none =>
    if env.exitStatus ≠ 0 then
      ⟨command,
        .error ("Failed to generate code snapshot: Carbon CLI failed with status " ++
          toString env.exitStatus), [], false⟩
    else
      match pngFiles env.dirListing with
      | [] => ⟨command, .error "Failed to generate code snapshot: No image was generated",
          [], false⟩
      | f :: _ =>
        match env.persistError with
        | some m => ⟨command, .error ("Failed to generate code snapshot: " ++ m), [f], false⟩
        | none => ⟨command, .ok ("/generated-images/" ++ uuid ++ ".png"), [f], true⟩

/-- Embedding of `generateCodeImage` from the remote variant (`part_002`):
identical control flow, but the command carries the hard-coded preset and a
`--config` flag, and the persistence step is `uploadToS3`, whose URL is the
returned reference. -/
def generateCodeImageRemote (uuid base rnd cwd bucket cdn : String)
    (arg ctor : Option String) (env : RenderEnv) : CodeGenOutcome :=
  let tempDir := tempDirName base rnd
  let tempFile := tempDir ++ "/code_snippet.py"
  let command := buildCodeCommandRemote tempFile tempDir cwd arg ctor
  match env.launchError with
  | some m => ⟨command, .error ("Failed to generate code snapshot: " ++ m), [], false⟩
  | none =>
    if env.exitStatus ≠ 0 then
      ⟨command,
        .error ("Failed to generate code snapshot: Carbon CLI failed with status " ++
          toString env.exitStatus), [], false⟩
    else
      match pngFiles env.dirListing with
      | [] => ⟨command, .error "Failed to generate code snapshot: No image was generated",
          [], false⟩
      | f :: _ =>
        match env.persistError with
        | some m => ⟨command, .error ("Failed to generate code snapshot: " ++ m), [f], false⟩
        | none => ⟨command, .ok (uploadToS3Url bucket cdn (uuid ++ ".png")), [f], true⟩

/-- Embedding of the older inline `generateCodeImage` in the route file
(promise-based `spawn`): a launch failure has no `error` handler so the
promise never settles; renderer failure and missing output are rejected
unwrapped; on success the file is copied to the cwd-relative name
`<uuid>.png`, which is also the resolved reference. -/
def generateCodeImageInline (uuid base rnd : String) (arg ctor : Option String)
    (env : RenderEnv) : AsyncOutcome :=
  let _ := buildCodeCommandLocal (tempDirName base rnd ++ "/code_snippet.ts")
    (tempDirName base rnd) arg ctor
  match env.launchError with
  | some _ => ⟨none, [], false⟩
  | none =>
    if env.exitStatus ≠ 0 then ⟨some (.error "Carbon CLI failed"), [], false⟩
    else
      match pngFiles env.dirListing with
      | [] => ⟨some (.error "No image was generated"), [], false⟩
      | f :: _ =>
        match env.persistError with
        | some _ => ⟨none, [f], false⟩
        | none => ⟨some (.ok (uuid ++ ".png")), [f], true⟩

/-- Embedding of `generateDiagramImage` from the local variant (`part_000`).
Only synchronous setup failures are caught and wrapped; a non-zero `mmdc`
exit rejects with the bare `Mermaid CLI failed`, and a copy failure inside
the `close` callback is uncaught, so the promise never settles. The
workspace is removed only on full success. -/
def generateDiagramImageLocal (uuid base rnd : String) (env : DiagramEnv) :
    AsyncOutcome :=
  let tempDir := tempDirName base rnd
  match env.setupError with
  | some m => ⟨some (.error ("Failed to generate diagram: " ++ m)), [], false⟩
  | none =>
    if env.exitCode ≠ 0 then ⟨some (.error "Mermaid CLI failed"), [], false⟩
    else
      match env.persistError with
      | some _ => ⟨none, [tempDir ++ "/diagram.png"], false⟩
      | none =>
        ⟨some (.ok ("/generated-images/" ++ uuid ++ ".png")),
          [tempDir ++ "/diagram.png"], true⟩

/-- Embedding of `generateDiagramImage` from the remote variant (`part_002`):
same shape, but the callback wraps its body in try/catch and rejects the raw
persistence error (unwrapped), and the resolved reference is the S3/CDN URL. -/
def generateDiagramImageRemote (uuid base rnd bucket cdn : String)
    (env : DiagramEnv) : AsyncOutcome :=
  let tempDir := tempDirName base rnd
  match env.setupError with
  | some m => ⟨some (.error ("Failed to generate diagram: " ++ m)), [], false⟩
  | none =>
    if env.exitCode ≠ 0 then ⟨some (.error "Mermaid CLI failed"), [], false⟩
    else
      match env.persistError with
      | some m => ⟨some (.error m), [tempDir ++ "/diagram.png"], false⟩
      | none =>
        ⟨some (.ok (uploadToS3Url bucket cdn (uuid ++ ".png"))),
          [tempDir ++ "/diagram.png"], true⟩

/-- Configuration held by a successfully constructed remote `ContentGenerator`. -/
structure RemoteConfig where
  presetName : Option String
  bucketName : String
  cdnDomain : String

/-- Embedding of the remote variant's constructor: `bucketName` and
`cdnDomain` default to the empty string, and an empty bucket name throws
before anything else runs. -/
def mkRemoteGenerator (presetArg bucketEnv cdnEnv : Option String) :
    Except String RemoteConfig :=
  let bucketName := bucketEnv.getD ""
  let cdnDomain := cdnEnv.getD ""
  if bucketName = "" then .error "AWS_S3_BUCKET environment variable is required"
  else .ok ⟨presetArg, bucketName, cdnDomain⟩

deriving instance DecidableEq for Except

/-- Helper: the command line recorded by the local `generateCodeImage` is the
one built before spawning, on every path. -/
theorem generateCodeImageLocal_command (uuid base rnd : String)
    (arg ctor : Option String) (env : RenderEnv) :
    (generateCodeImageLocal uuid base rnd arg ctor env).command =
      buildCodeCommandLocal (tempDirName base rnd ++ "/code_snippet.ts")
        (tempDirName base rnd) arg ctor := by
  simp only [generateCodeImageLocal]
  (repeat' split) <;> rfl

/-- C1 counterexample: a `generateCodeImage` call whose renderer exits with
status 1 returns an error, yet the workspace directory has not been removed
when control returns. -/
theorem c1_workspace_leak_cx :
    (generateCodeImageLocal "u" "tmp" "x" none none ⟨none, 1, [], none⟩).result =
      Except.error "Failed to generate code snapshot: Carbon CLI failed with status 1" ∧
    (generateCodeImageLocal "u" "tmp" "x" none none ⟨none, 1, [], none⟩).tempDirRemoved
      = false := by
  decide

/-- C1 amended: in every variant the workspace directory is removed exactly
when the call succeeds; on every failure path (launch failure, non-zero exit,
missing output, persistence failure) it is left behind. -/
theorem c1_workspace_removed_iff_success (uuid base rnd cwd bucket cdn : String)
    (arg ctor : Option String) (env : RenderEnv) (denv : DiagramEnv) :
    ((generateCodeImageLocal uuid base rnd arg ctor env).tempDirRemoved = true ↔
      ∃ r, (generateCodeImageLocal uuid base rnd arg ctor env).result = .ok r) ∧
    ((generateCodeImageRemote uuid base rnd cwd bucket cdn arg ctor env).tempDirRemoved
        = true ↔
      ∃ r, (generateCodeImageRemote uuid base rnd cwd bucket cdn arg ctor env).result
        = .ok r) ∧
    ((generateDiagramImageLocal uuid base rnd denv).tempDirRemoved = true ↔
      ∃ r, (generateDiagramImageLocal uuid base rnd denv).result = some (.ok r)) ∧
    ((generateDiagramImageRemote uuid base rnd bucket cdn denv).tempDirRemoved = true ↔
      ∃ r, (generateDiagramImageRemote uuid base rnd bucket cdn denv).result
        = some (.ok r)) := by
  refine ⟨?_, ?_, ?_, ?_⟩ <;>
    simp only [generateCodeImageLocal, generateCodeImageRemote,
      generateDiagramImageLocal, generateDiagramImageRemote] <;>
    (repeat' split) <;> simp

/-- C2: whenever the renderer launches but exits non-zero, both code-image
variants fail with the render-tool-failure message and the persistence step is
never invoked. -/
theorem c2_nonzero_exit_no_persist (uuid base rnd cwd bucket cdn : String)
    (arg ctor : Option String) (env : RenderEnv)
    (hl : env.launchError = none) (hs : env.exitStatus ≠ 0) :
    (generateCodeImageLocal uuid base rnd arg ctor env).result =
      .error ("Failed to generate code snapshot: Carbon CLI failed with status " ++
        toString env.exitStatus) ∧
    (generateCodeImageLocal uuid base rnd arg ctor env).persistCalls = [] ∧
    (generateCodeImageRemote uuid base rnd cwd bucket cdn arg ctor env).result =
      .error ("Failed to generate code snapshot: Carbon CLI failed with status " ++
        toString env.exitStatus) ∧
    (generateCodeImageRemote uuid base rnd cwd bucket cdn arg ctor env).persistCalls
      = [] := by
  simp [generateCodeImageLocal, generateCodeImageRemote, hl, hs]

/-- C2 witness at a concrete failing environment. -/
theorem c2_nonzero_exit_no_persist_witness :
    (generateCodeImageLocal "u" "tmp" "x" none none ⟨none, 1, [], none⟩).result =
      .error ("Failed to generate code snapshot: Carbon CLI failed with status " ++
        toString (1 : Int)) ∧
    (generateCodeImageLocal "u" "tmp" "x" none none ⟨none, 1, [], none⟩).persistCalls
      = [] ∧
    (generateCodeImageRemote "u" "tmp" "x" "w" "b" "" none none
        ⟨none, 1, [], none⟩).result =
      .error ("Failed to generate code snapshot: Carbon CLI failed with status " ++
        toString (1 : Int)) ∧
    (generateCodeImageRemote "u" "tmp" "x" "w" "b" "" none none
        ⟨none, 1, [], none⟩).persistCalls = [] :=
  c2_nonzero_exit_no_persist "u" "tmp" "x" "w" "b" "" none none
    ⟨none, 1, [], none⟩ rfl (by decide)

/-- C6: a zero renderer exit with no `.png` file in the workspace listing
makes both code-image variants fail with the no-artifact-produced message,
and nothing is persisted. -/
theorem c6_no_artifact_error (uuid base rnd cwd bucket cdn : String)
    (arg ctor : Option String) (env : RenderEnv)
    (hl : env.launchError = none) (hs : env.exitStatus = 0)
    (hp : pngFiles env.dirListing = []) :
    (generateCodeImageLocal uuid base rnd arg ctor env).result =
      .error "Failed to generate code snapshot: No image was generated" ∧
    (generateCodeImageLocal uuid base rnd arg ctor env).persistCalls = [] ∧
    (generateCodeImageRemote uuid base rnd cwd bucket cdn arg ctor env).result =
      .error "Failed to generate code snapshot: No image was generated" ∧
    (generateCodeImageRemote uuid base rnd cwd bucket cdn arg ctor env).persistCalls
      = [] := by
  simp [generateCodeImageLocal, generateCodeImageRemote, hl, hs, hp]

/-- C6 witness: renderer exits zero but the workspace only holds the input
file, so no PNG is found. -/
theorem c6_no_artifact_error_witness :
    (generateCodeImageLocal "u" "tmp" "x" none none
        ⟨none, 0, ["code_snippet.ts"], none⟩).result =
      .error "Failed to generate code snapshot: No image was generated" ∧
    (generateCodeImageLocal "u" "tmp" "x" none none
        ⟨none, 0, ["code_snippet.ts"], none⟩).persistCalls = [] ∧
    (generateCodeImageRemote "u" "tmp" "x" "w" "b" "" none none
        ⟨none, 0, ["code_snippet.ts"], none⟩).result =
      .error "Failed to generate code snapshot: No image was generated" ∧
    (generateCodeImageRemote "u" "tmp" "x" "w" "b" "" none none
        ⟨none, 0, ["code_snippet.ts"], none⟩).persistCalls = [] :=
  c6_no_artifact_error "u" "tmp" "x" "w" "b" "" none none
    ⟨none, 0, ["code_snippet.ts"], none⟩ rfl rfl (by decide)

/-- C7: constructing the remote generator with an empty or absent bucket
name fails immediately with the configuration error, and with a non-empty
bucket name it succeeds, before any render or upload happens. -/
theorem c7_remote_bucket_config (p b c : Option String) :
    (b.getD "" = "" →
      mkRemoteGenerator p b c =
        .error "AWS_S3_BUCKET environment variable is required") ∧
    (b.getD "" ≠ "" →
      mkRemoteGenerator p b c = .ok ⟨p, b.getD "", c.getD ""⟩) := by
  constructor <;> intro h <;> simp [mkRemoteGenerator, h]

/-- C7 witness: absent bucket fails, non-empty bucket succeeds. -/
theorem c7_remote_bucket_config_witness :
    mkRemoteGenerator none none none =
      .error "AWS_S3_BUCKET environment variable is required" ∧
    mkRemoteGenerator none (some "bkt") none = .ok ⟨none, "bkt", ""⟩ :=
  ⟨(c7_remote_bucket_config none none none).1 rfl,
   (c7_remote_bucket_config none (some "bkt") none).2 (by decide)⟩

/-- C9: when the renderer exits zero and two or more PNG files are in the
workspace listing, exactly the first PNG in directory-listing order is handed
to the persistence step, in both code-image variants, and on successful
persistence the workspace (with the remaining PNGs) is removed. -/
theorem c9_first_png_persisted (uuid base rnd cwd bucket cdn : String)
    (arg ctor : Option String) (env : RenderEnv) (f g : String) (rest : List String)
    (hl : env.launchError = none) (hs : env.exitStatus = 0)
    (hp : pngFiles env.dirListing = f :: g :: rest) :
    (generateCodeImageLocal uuid base rnd arg ctor env).persistCalls = [f] ∧
    (generateCodeImageRemote uuid base rnd cwd bucket cdn arg ctor env).persistCalls
      = [f] ∧
    (env.persistError = none →
      (generateCodeImageLocal uuid base rnd arg ctor env).tempDirRemoved = true ∧
      (generateCodeImageRemote uuid base rnd cwd bucket cdn arg ctor env).tempDirRemoved
        = true) := by
  cases hpe : env.persistError <;>
    simp [generateCodeImageLocal, generateCodeImageRemote, hl, hs, hp, hpe]

/-- C9 witness: a listing holding two PNGs; the first one is persisted. -/
theorem c9_first_png_persisted_witness :
    (generateCodeImageLocal "u" "tmp" "x" none none
        ⟨none, 0, ["a.png", "b.png"], none⟩).persistCalls = ["a.png"] ∧
    (generateCodeImageRemote "u" "tmp" "x" "w" "bk" "" none none
        ⟨none, 0, ["a.png", "b.png"], none⟩).persistCalls = ["a.png"] ∧
    ((⟨none, 0, ["a.png", "b.png"], none⟩ : RenderEnv).persistError = none →
      (generateCodeImageLocal "u" "tmp" "x" none none
          ⟨none, 0, ["a.png", "b.png"], none⟩).tempDirRemoved = true ∧
      (generateCodeImageRemote "u" "tmp" "x" "w" "bk" "" none none
          ⟨none, 0, ["a.png", "b.png"], none⟩).tempDirRemoved = true) :=
  c9_first_png_persisted "u" "tmp" "x" "w" "bk" "" none none
    ⟨none, 0, ["a.png", "b.png"], none⟩ "a.png" "b.png" [] rfl rfl (by decide)

/-- C10: a call with no preset argument on a generator constructed without a
preset produces a command line with no preset flag at all: the hard default
is not applied, because the guard requires one of the two to be truthy. -/
theorem c10_no_preset_flag (uuid base rnd : String) (env : RenderEnv)
    (arg ctor : Option String) (ha : arg = none) (hc : ctor = none) :
    (generateCodeImageLocal uuid base rnd arg ctor env).command =
      ["carbon-now", tempDirName base rnd ++ "/code_snippet.ts", "--save-to",
        tempDirName base rnd] ∧
    "-p" ∉ (generateCodeImageLocal uuid base rnd arg ctor env).command := by
  subst ha hc
  have hcmd : (generateCodeImageLocal uuid base rnd none none env).command =
      ["carbon-now", tempDirName base rnd ++ "/code_snippet.ts", "--save-to",
        tempDirName base rnd] := by
    rw [generateCodeImageLocal_command]
    simp [buildCodeCommandLocal, jsStr]
  refine ⟨hcmd, ?_⟩
  rw [hcmd]
  have hsix : ("/code-" : String).length = 6 := rfl
  have hsn : ("/code_snippet.ts" : String).length = 16 := rfl
  have hdash : ("-p" : String).length = 2 := rfl
  have hlen : (tempDirName base rnd).length = base.length + 6 + rnd.length := by
    simp [tempDirName, String.length_append, hsix]
  have htd : tempDirName base rnd ≠ "-p" := by
    intro h
    have h2 := congrArg String.length h
    rw [hlen, hdash] at h2
    omega
  have htf : tempDirName base rnd ++ "/code_snippet.ts" ≠ "-p" := by
    intro h
    have h2 := congrArg String.length h
    rw [String.length_append, hlen, hsn, hdash] at h2
    omega
  intro hmem
  simp only [List.mem_cons, List.not_mem_nil, or_false] at hmem
  rcases hmem with h | h | h | h
  · exact absurd h (by decide)
  · exact htf h.symm
  · exact absurd h (by decide)
  · exact htd h.symm

/-- C10 witness at concrete inputs. -/
theorem c10_no_preset_flag_witness :
    (generateCodeImageLocal "u" "tmp" "x" none none ⟨none, 0, ["a.png"], none⟩).command =
      ["carbon-now", tempDirName "tmp" "x" ++ "/code_snippet.ts", "--save-to",
        tempDirName "tmp" "x"] ∧
    "-p" ∉ (generateCodeImageLocal "u" "tmp" "x" none none
        ⟨none, 0, ["a.png"], none⟩).command :=
  c10_no_preset_flag "u" "tmp" "x" ⟨none, 0, ["a.png"], none⟩ none none rfl rfl

/-- C4 counterexample: in the remote variant, a call supplying the preset
name `dracula` produces a command line whose preset flag carries the
hard-coded `openai`, not the supplied name. -/
theorem c4_remote_preset_cx :
    buildCodeCommandRemote "f" "d" "w" (some "dracula") none =
      ["carbon-now", "f", "--save-to", "d", "-p", "openai",
        "--config", "w/src/app/api/code_snippet_generator/carbon-now.json"] ∧
    ¬ ["-p", "dracula"] <:+:
      buildCodeCommandRemote "f" "d" "w" (some "dracula") none := by
  decide

/-- C4 amended: when a preset is supplied (the explicit argument if truthy,
else the constructor default), the local variant appends `-p` with exactly
that name, while the remote variant appends `-p` with the hard-coded
`openai` regardless of the supplied name. -/
theorem c4_preset_flag (tf td cwd : String) (arg ctor : Option String) (v : String)
    (h : ((jsStr arg).orElse fun _ => jsStr ctor) = some v) :
    buildCodeCommandLocal tf td arg ctor =
      ["carbon-now", tf, "--save-to", td, "-p", v] ∧
    buildCodeCommandRemote tf td cwd arg ctor =
      ["carbon-now", tf, "--save-to", td, "-p", "openai",
        "--config", cwd ++ "/src/app/api/code_snippet_generator/carbon-now.json"] := by
  cases harg : jsStr arg <;> cases hctor : jsStr ctor <;>
    simp [buildCodeCommandLocal, buildCodeCommandRemote, harg, hctor,
      Option.orElse] at h ⊢ <;> simp [h]

/-- C4 witness: explicit preset `nord`, no constructor preset. -/
theorem c4_preset_flag_witness :
    buildCodeCommandLocal "f" "d" (some "nord") none =
      ["carbon-now", "f", "--save-to", "d", "-p", "nord"] ∧
    buildCodeCommandRemote "f" "d" "w" (some "nord") none =
      ["carbon-now", "f", "--save-to", "d", "-p", "openai",
        "--config", "w" ++ "/src/app/api/code_snippet_generator/carbon-now.json"] :=
  c4_preset_flag "f" "d" "w" (some "nord") none "nord" (by decide)

/-- C5 counterexample: the inline route-file variant, on success, returns the
bare `<uuid>.png`, which is neither the local `/generated-images/<uuid>.png`
form nor one of the `https://` remote URL forms. -/
theorem c5_inline_reference_cx :
    (generateCodeImageInline "0a1b" "tmp" "x" none none
        ⟨none, 0, ["out.png"], none⟩).result = some (.ok "0a1b.png") ∧
    "0a1b.png" ≠ "/generated-images/0a1b.png" ∧
    ¬ ("/generated-images/".data <+: "0a1b.png".data) ∧
    ¬ ("https://".data <+: "0a1b.png".data) := by
  decide

/-- Helper: folding the path separator into the key prefix. -/
theorem slash_key_append (s : String) :
    "/" ++ ("generated-images/" ++ s) = "/generated-images/" ++ s := by
  rw [← String.append_assoc]
  rfl

/-- Helper: folding the S3 host suffix into the key prefix. -/
theorem s3_key_append (s : String) :
    ".s3.amazonaws.com/" ++ ("generated-images/" ++ s) =
      ".s3.amazonaws.com/generated-images/" ++ s := by
  rw [← String.append_assoc]
  rfl

/-- C5 amended: successful references are `/generated-images/<uuid>.png` in
the local variant and the CDN or S3 URL over `generated-images/<uuid>.png`
in the remote variant, but the inline route-file variant returns the bare
`<uuid>.png`. -/
theorem c5_reference_forms (uuid base rnd cwd bucket cdn : String)
    (arg ctor : Option String) (env : RenderEnv) :
    (∀ r, (generateCodeImageLocal uuid base rnd arg ctor env).result = .ok r →
      r = "/generated-images/" ++ uuid ++ ".png") ∧
    (∀ r, (generateCodeImageRemote uuid base rnd cwd bucket cdn arg ctor env).result
        = .ok r →
      r = if cdn ≠ "" then
            "https://" ++ cdn ++ "/generated-images/" ++ uuid ++ ".png"
          else
            "https://" ++ bucket ++ ".s3.amazonaws.com/generated-images/" ++
              uuid ++ ".png") ∧
    (∀ r, (generateCodeImageInline uuid base rnd arg ctor env).result
        = some (.ok r) →
      r = uuid ++ ".png") := by
  have hurl : uploadToS3Url bucket cdn (uuid ++ ".png") =
      if cdn ≠ "" then
        "https://" ++ cdn ++ "/generated-images/" ++ uuid ++ ".png"
      else
        "https://" ++ bucket ++ ".s3.amazonaws.com/generated-images/" ++
          uuid ++ ".png" := by
    simp only [uploadToS3Url]
    split <;> simp [String.append_assoc, slash_key_append, s3_key_append]
  refine ⟨?_, ?_, ?_⟩ <;> intro r <;>
    simp only [generateCodeImageLocal, generateCodeImageRemote,
      generateCodeImageInline, hurl] <;>
    (repeat' split) <;> simp <;> intro h <;> simp [h]

/-- C5 witness: concrete successful local call returning the prefixed form. -/
theorem c5_reference_forms_witness :
    ("/generated-images/u7.png" : String) = "/generated-images/" ++ "u7" ++ ".png" :=
  (c5_reference_forms "u7" "tmp" "x" "w" "b" "" none none
    ⟨none, 0, ["o.png"], none⟩).1 "/generated-images/u7.png" (by decide)

/-- C3 counterexample: a diagram render whose external tool exits non-zero
reaches the caller as the bare `Mermaid CLI failed`, without the stable
`Failed to generate diagram: ` prefix — the rejection happens inside the
promise callback, outside the try/catch. -/
theorem c3_diagram_error_unwrapped_cx :
    (generateDiagramImageLocal "u" "tmp" "x" ⟨none, 1, none⟩).result =
      some (.error "Mermaid CLI failed") ∧
    ¬ ("Failed to generate diagram: ".data <+: "Mermaid CLI failed".data) := by
  decide

/-- C3 amended: every failure of `generateCodeImage` (both variants) reaches
the caller with the stable `Failed to generate code snapshot: ` prefix, but
in `generateDiagramImage` only synchronous setup failures carry the
`Failed to generate diagram: ` prefix; a non-zero renderer exit surfaces as
the bare `Mermaid CLI failed`, and a persistence failure in the remote
variant surfaces as the raw unwrapped error. -/
theorem c3_error_wrapping (uuid base rnd cwd bucket cdn : String)
    (arg ctor : Option String) (env : RenderEnv) (denv : DiagramEnv) :
    (∀ m, (generateCodeImageLocal uuid base rnd arg ctor env).result = .error m →
      "Failed to generate code snapshot: ".data <+: m.data) ∧
    (∀ m, (generateCodeImageRemote uuid base rnd cwd bucket cdn arg ctor env).result
        = .error m →
      "Failed to generate code snapshot: ".data <+: m.data) ∧
    (∀ m, denv.setupError = some m →
      (generateDiagramImageLocal uuid base rnd denv).result =
        some (.error ("Failed to generate diagram: " ++ m)) ∧
      (generateDiagramImageRemote uuid base rnd bucket cdn denv).result =
        some (.error ("Failed to generate diagram: " ++ m))) ∧
    (denv.setupError = none → denv.exitCode ≠ 0 →
      (generateDiagramImageLocal uuid base rnd denv).result =
        some (.error "Mermaid CLI failed") ∧
      (generateDiagramImageRemote uuid base rnd bucket cdn denv).result =
        some (.error "Mermaid CLI failed")) ∧
    (∀ m, denv.setupError = none → denv.exitCode = 0 → denv.persistError = some m →
      (generateDiagramImageRemote uuid base rnd bucket cdn denv).result =
        some (.error m)) := by
  refine ⟨?_, ?_, ?_, ?_, ?_⟩
  · intro m
    simp only [generateCodeImageLocal]
    (repeat' split) <;> simp <;> intro h <;>
      simp [← h, String.data_append, List.prefix_append]
  · intro m
    simp only [generateCodeImageRemote]
    (repeat' split) <;> simp <;> intro h <;>
      simp [← h, String.data_append, List.prefix_append]
  · intro m h
    simp [generateDiagramImageLocal, generateDiagramImageRemote, h]
  · intro h1 h2
    simp [generateDiagramImageLocal, generateDiagramImageRemote, h1, h2]
  · intro m h1 h2 h3
    simp [generateDiagramImageRemote, h1, h2, h3]

/-- C3 witness: a synchronous setup failure in the diagram path is wrapped. -/
theorem c3_error_wrapping_witness :
    (generateDiagramImageLocal "u" "tmp" "x" ⟨some "boom", 0, none⟩).result =
      some (.error ("Failed to generate diagram: " ++ "boom")) ∧
    (generateDiagramImageRemote "u" "tmp" "x" "b" "" ⟨some "boom", 0, none⟩).result =
      some (.error ("Failed to generate diagram: " ++ "boom")) :=
  (c3_error_wrapping "u" "tmp" "x" "w" "b" "" none none
    ⟨none, 0, [], none⟩ ⟨some "boom", 0, none⟩).2.2.1 "boom" rfl

/-- Characters matched by the regex class `[\w-]` in the route's extraction
pattern: ASCII word characters and the dash. -/
def isWordDash (c : Char) : Bool :=
  c.isAlpha || c.isDigit || c = '_' || c = '-'

/-- Characters that can occur in a core-generated UUID (uuidv4): lowercase
hex digits and dashes. -/
def isUuidChar (c : Char) : Bool :=
  c.isDigit || ('a' ≤ c && c ≤ 'f') || c = '-'

/-- The literal part of the extraction pattern. -/
def giLit : List Char := "/generated-images/".data

/-- The literal extension part of the extraction pattern. -/
def pngExt : List Char := ".png".data

/-- The local-strategy reference string over a given UUID, as characters. -/
def localRef (uuid : List Char) : List Char := giLit ++ uuid ++ pngExt

/-- One attempt of the route regex `/\/generated-images\/[\w-]+\.png/` at the
head of `t`, returning the length of the match when it succeeds. The greedy
`[\w-]+` with backtracking can only succeed at the maximal word-dash run,
because backing off would place a word-dash character where the literal `.`
must match; so the maximal-run test below is the exact regex semantics. -/
def matchLen (t : List Char) : Option Nat :=
  if giLit.isPrefixOf t then
    if ((t.drop 18).takeWhile isWordDash).length ≠ 0 ∧
        pngExt.isPrefixOf ((t.drop 18).drop ((t.drop 18).takeWhile isWordDash).length) then
      some (18 + ((t.drop 18).takeWhile isWordDash).length + 4)
    else none
  else none

/-- Helper: a successful match is nonempty and starts inside the text. -/
theorem matchLen_pos {t : List Char} {k : Nat} (h : matchLen t = some k) :
    0 < k ∧ 0 < t.length := by
  unfold matchLen at h
  split at h
  · split at h
    · rename_i hlit _
      rw [List.isPrefixOf_iff_prefix] at hlit
      have h18 : 18 ≤ t.length := by
        have := hlit.length_le
        simpa [giLit] using this
      injection h with hk
      omega
    · exact absurd h (by simp)
  · exact absurd h (by simp)

/-- Embedding of `String.prototype.match` with the global flag: scan left
to right, emit each leftmost match and resume after it, otherwise advance
one character. -/
def extractImagePaths (t : List Char) : List (List Char) :=
  match h : matchLen t with
  | some k => t.take k :: extractImagePaths (t.drop k)
  | none =>
    match t with
    | [] => []
    | _ :: t2 => extractImagePaths t2
termination_by t.length
decreasing_by
  · have hp := matchLen_pos h
    simp only [List.length_drop]
    omega
  · simp

/-- Unfolding: at a matching position the match is emitted and scanning
resumes after it. -/
theorem extract_cons_match (t : List Char) (k : Nat) (h : matchLen t = some k) :
    extractImagePaths t = t.take k :: extractImagePaths (t.drop k) := by
  conv_lhs => unfold extractImagePaths
  split
  · rename_i k2 hk2
    rw [h] at hk2
    injection hk2 with hkk
    subst hkk
    rfl
  · rename_i hk2
    rw [h] at hk2
    exact absurd hk2 (by simp)

/-- Unfolding: at a non-matching position the scanner advances one character. -/
theorem extract_skip (a : Char) (t : List Char) (h : matchLen (a :: t) = none) :
    extractImagePaths (a :: t) = extractImagePaths t := by
  conv_lhs => unfold extractImagePaths
  split
  · rename_i k2 hk2
    rw [h] at hk2
    exact absurd hk2 (by simp)
  · rfl

/-- Helper: `takeWhile` stops at the first failing character even across an
append boundary. -/
theorem takeWhile_append_stop (p : Char → Bool) (xs ys : List Char) (c : Char)
    (hc : p c = false) :
    (xs ++ c :: ys).takeWhile p = xs.takeWhile p := by
  induction xs with
  | nil => simp [List.takeWhile_cons, hc]
  | cons a as ih =>
    by_cases h : p a <;> simp [List.takeWhile_cons, h, ih]

/-- Helper: the reference string has length 22 plus the UUID length. -/
theorem localRef_length (uuid : List Char) :
    (localRef uuid).length = 18 + uuid.length + 4 := by
  have h1 : giLit.length = 18 := by decide
  have h2 : pngExt.length = 4 := by decide
  simp [localRef, List.length_append, h1, h2]
  omega

/-- Helper: the extraction pattern matches at the head of a reference string,
consuming exactly the reference. -/
theorem matchLen_ref (uuid suf : List Char) (hu : uuid ≠ [])
    (hw : ∀ c ∈ uuid, isWordDash c = true) :
    matchLen (localRef uuid ++ suf) = some (18 + uuid.length + 4) := by
  have hassoc : localRef uuid ++ suf = giLit ++ (uuid ++ (pngExt ++ suf)) := by
    simp [localRef, List.append_assoc]
  have hpre : giLit.isPrefixOf (localRef uuid ++ suf) = true := by
    rw [List.isPrefixOf_iff_prefix, hassoc]
    exact List.prefix_append _ _
  have hd18 : (localRef uuid ++ suf).drop 18 = uuid ++ (pngExt ++ suf) := by
    rw [hassoc]
    exact List.drop_left' (by decide)
  have hdot : pngExt ++ suf = '.' :: ("png".data ++ suf) := by
    rw [show pngExt = '.' :: "png".data from by decide]
    rfl
  have htw : (uuid ++ (pngExt ++ suf)).takeWhile isWordDash = uuid := by
    rw [hdot, takeWhile_append_stop _ _ _ _ (by decide : isWordDash '.' = false)]
    exact List.takeWhile_eq_self_iff.mpr hw
  have hdrop : (uuid ++ (pngExt ++ suf)).drop uuid.length = pngExt ++ suf :=
    List.drop_left' rfl
  have hpng : pngExt.isPrefixOf (pngExt ++ suf) = true := by
    rw [List.isPrefixOf_iff_prefix]
    exact List.prefix_append _ _
  have hul : uuid.length ≠ 0 := by
    simpa [List.length_eq_zero] using hu
  unfold matchLen
  rw [hpre]
  simp only [hd18, htw, hdrop, if_pos (And.intro hul hpng)]
  simp

/-- Helper: the reference is the head of the extraction output when it sits
at the start of the text. -/
theorem extract_ref_head (uuid suf : List Char) (hu : uuid ≠ [])
    (hw : ∀ c ∈ uuid, isWordDash c = true) :
    localRef uuid ∈ extractImagePaths (localRef uuid ++ suf) := by
  rw [extract_cons_match _ _ (matchLen_ref uuid suf hu hw),
    List.take_left' (localRef_length uuid)]
  exact List.mem_cons_self _ _

/-- Helper (no spanning): a match found at a position strictly before an
embedded reference lies entirely within the preceding text. The literal
`/generated-images/` cannot straddle the boundary (its only self-overlap, the
final slash, fails at the `.png` check because the next run is the literal
`generated-images`), the word-dash run cannot cross the reference's leading
slash, and the `.png` literal cannot begin inside the last three characters
before the reference because the reference starts with a slash. -/
theorem matchLen_append_le (pre suf uuid : List Char) (k : Nat)
    (hu : uuid ≠ []) (hw : ∀ c ∈ uuid, isWordDash c = true)
    (hpre : pre ≠ [])
    (h : matchLen (pre ++ (localRef uuid ++ suf)) = some k) :
    k ≤ pre.length := by
  by_contra hk
  push_neg at hk
  set t := pre ++ (localRef uuid ++ suf) with ht
  unfold matchLen at h
  split at h
  case isFalse => exact absurd h (by simp)
  case isTrue hlit =>
    split at h
    case isFalse => exact absurd h (by simp)
    case isTrue hcond =>
      injection h with hkeq
      rw [List.isPrefixOf_iff_prefix] at hlit
      obtain ⟨tail, htail⟩ := hlit
      have hgl : giLit.length = 18 := by decide
      have hP1 : 0 < pre.length := List.length_pos.mpr hpre
      by_cases hP : pre.length ≤ 17
      · -- the literal spans the boundary: only possible with pre.length = 17
        have hspan : giLit.drop pre.length = giLit.take (18 - pre.length) := by
          have h3 : t.drop pre.length = localRef uuid ++ suf := by
            rw [ht]
            exact List.drop_left' rfl
          have h4 : t.drop pre.length = giLit.drop pre.length ++ tail := by
            rw [← htail]
            exact List.drop_append_of_le_length (by omega)
          have h5 : giLit.drop pre.length ++ tail =
              giLit ++ ((uuid ++ pngExt) ++ suf) := by
            rw [← h4, h3]
            simp [localRef, List.append_assoc]
          have hlen5 : (giLit.drop pre.length).length = 18 - pre.length := by
            simp [List.length_drop, hgl]
          calc giLit.drop pre.length
              = (giLit.drop pre.length ++ tail).take (18 - pre.length) :=
                (List.take_left' hlen5).symm
            _ = (giLit ++ ((uuid ++ pngExt) ++ suf)).take (18 - pre.length) := by
                rw [h5]
            _ = giLit.take (18 - pre.length) :=
                List.take_append_of_le_length (by omega)
        have h17 : pre.length = 17 := by
          have hdec : ∀ P, P < 18 → 0 < P →
              giLit.drop P = giLit.take (18 - P) → P = 17 := by decide
          exact hdec pre.length (by omega) hP1 hspan
        have hd18 : t.drop 18 =
            "generated-images".data ++ ('/' :: ((uuid ++ pngExt) ++ suf)) := by
          have h6 : t.drop 17 = localRef uuid ++ suf := by
            rw [ht]
            exact List.drop_left' h17
          have h7 : t.drop 18 = (localRef uuid ++ suf).drop 1 := by
            rw [← h6, List.drop_drop]
          rw [h7, show localRef uuid ++ suf = giLit ++ ((uuid ++ pngExt) ++ suf) from
            by simp [localRef, List.append_assoc],
            List.drop_append_of_le_length (by omega),
            show giLit.drop 1 = "generated-images".data ++ ['/'] from by decide]
          simp [List.append_assoc]
        have htw : (t.drop 18).takeWhile isWordDash = "generated-images".data := by
          rw [hd18, takeWhile_append_stop _ _ _ _ (by decide : isWordDash '/' = false)]
          exact List.takeWhile_eq_self_iff.mpr (by decide)
        have hdrop16 : (t.drop 18).drop ((t.drop 18).takeWhile isWordDash).length =
            '/' :: ((uuid ++ pngExt) ++ suf) := by
          rw [htw, hd18]
          exact List.drop_left' (by decide)
        have hbad := hcond.2
        rw [hdrop16, List.isPrefixOf_iff_prefix] at hbad
        obtain ⟨w, hw2⟩ := hbad
        rw [show pngExt = '.' :: "png".data from by decide] at hw2
        injection hw2 with hc1 _
        exact absurd hc1 (by decide)
      · -- the literal lies inside pre
        push_neg at hP
        have hpre18 : pre.take 18 = giLit := by
          have h1 : t.take 18 = giLit := by
            rw [← htail, List.take_left' hgl]
          have h2 : t.take 18 = pre.take 18 := by
            rw [ht]
            exact List.take_append_of_le_length (by omega)
          rw [← h2, h1]
        have hd18 : t.drop 18 = pre.drop 18 ++ (localRef uuid ++ suf) := by
          rw [ht]
          exact List.drop_append_of_le_length (by omega)
        have href : localRef uuid ++ suf =
            '/' :: ("generated-images/".data ++ ((uuid ++ pngExt) ++ suf)) := by
          rw [show localRef uuid ++ suf = giLit ++ ((uuid ++ pngExt) ++ suf) from
            by simp [localRef, List.append_assoc],
            show giLit = '/' :: "generated-images/".data from by decide]
          rfl
        have htw : (t.drop 18).takeWhile isWordDash =
            (pre.drop 18).takeWhile isWordDash := by
          rw [hd18, href]
          exact takeWhile_append_stop _ _ _ _ (by decide : isWordDash '/' = false)
        have hrp : ((pre.drop 18).takeWhile isWordDash).length ≤ (pre.drop 18).length :=
          (List.takeWhile_prefix _).length_le
        have hlp1 : (pre.drop 18).length = pre.length - 18 := by
          simp [List.length_drop]
        have hk2 : k = 18 + ((pre.drop 18).takeWhile isWordDash).length + 4 := by
          rw [← hkeq, htw]
        have hd3 : (pre.drop 18).length -
            ((pre.drop 18).takeWhile isWordDash).length ≤ 3 := by
          omega
        have hpng := hcond.2
        rw [htw, hd18, List.drop_append_of_le_length hrp,
          List.isPrefixOf_iff_prefix] at hpng
        obtain ⟨w, hw2⟩ := hpng
        have hq : ((pre.drop 18).drop ((pre.drop 18).takeWhile isWordDash).length).length
            = (pre.drop 18).length - ((pre.drop 18).takeWhile isWordDash).length := by
          simp [List.length_drop]
          omega
        have hd2 : pngExt.drop ((pre.drop 18).length -
              ((pre.drop 18).takeWhile isWordDash).length) ++ w =
            localRef uuid ++ suf := by
          have h8 := congrArg
            (List.drop ((pre.drop 18).length -
              ((pre.drop 18).takeWhile isWordDash).length)) hw2
          rw [List.drop_append_of_le_length (by
            rw [show pngExt.length = 4 from by decide] at *
            omega), List.drop_left' hq] at h8
          exact h8
        rw [href] at hd2
        have hcases : (pre.drop 18).length -
              ((pre.drop 18).takeWhile isWordDash).length = 0 ∨
            (pre.drop 18).length - ((pre.drop 18).takeWhile isWordDash).length = 1 ∨
            (pre.drop 18).length - ((pre.drop 18).takeWhile isWordDash).length = 2 ∨
            (pre.drop 18).length - ((pre.drop 18).takeWhile isWordDash).length = 3 := by
          omega
        rcases hcases with hc | hc | hc | hc
        · rw [hc, show pngExt.drop 0 = '.' :: ('p' :: 'n' :: 'g' :: []) from by decide,
            List.cons_append] at hd2
          injection hd2 with hc1 _
          exact absurd hc1 (by decide)
        · rw [hc, show pngExt.drop 1 = 'p' :: 'n' :: 'g' :: [] from by decide,
            List.cons_append] at hd2
          injection hd2 with hc1 _
          exact absurd hc1 (by decide)
        · rw [hc, show pngExt.drop 2 = 'n' :: 'g' :: [] from by decide,
            List.cons_append] at hd2
          injection hd2 with hc1 _
          exact absurd hc1 (by decide)
        · rw [hc, show pngExt.drop 3 = 'g' :: [] from by decide,
            List.cons_append] at hd2
          injection hd2 with hc1 _
          exact absurd hc1 (by decide)

/-- Helper (main induction): an embedded reference is always among the
scanner's matches, whatever text surrounds it. -/
theorem extract_contains_localRef (n : Nat) : ∀ (pre suf uuid : List Char),
    pre.length ≤ n → uuid ≠ [] → (∀ c ∈ uuid, isWordDash c = true) →
    localRef uuid ∈ extractImagePaths (pre ++ (localRef uuid ++ suf)) := by
  induction n with
  | zero =>
    intro pre suf uuid hn hu hw
    have hnil : pre = [] := List.length_eq_zero.mp (Nat.le_zero.mp hn)
    subst hnil
    simpa using extract_ref_head uuid suf hu hw
  | succ n ih =>
    intro pre suf uuid hn hu hw
    cases pre with
    | nil => simpa using extract_ref_head uuid suf hu hw
    | cons a pre2 =>
      cases hm : matchLen ((a :: pre2) ++ (localRef uuid ++ suf)) with
      | none =>
        have hskip : extractImagePaths ((a :: pre2) ++ (localRef uuid ++ suf)) =
            extractImagePaths (pre2 ++ (localRef uuid ++ suf)) :=
          extract_skip a (pre2 ++ (localRef uuid ++ suf)) hm
        rw [hskip]
        exact ih pre2 suf uuid (by simpa using Nat.le_of_succ_le_succ hn) hu hw
      | some k =>
        have hkle : k ≤ (a :: pre2).length :=
          matchLen_append_le (a :: pre2) suf uuid k hu hw (by simp) hm
        have hk1 : 0 < k := (matchLen_pos hm).1
        rw [extract_cons_match _ k hm]
        apply List.mem_cons_of_mem
        rw [List.drop_append_of_le_length hkle]
        refine ih ((a :: pre2).drop k) suf uuid ?_ hu hw
        have : (a :: pre2).length = pre2.length + 1 := by simp
        simp only [List.length_drop]
        omega

/-- Helper: every UUID character is a word-dash character. -/
theorem uuidChar_isWordDash {c : Char} (h : isUuidChar c = true) :
    isWordDash c = true := by
  simp only [isUuidChar, Bool.or_eq_true, Bool.and_eq_true, decide_eq_true_eq] at h
  rcases h with (h | ⟨h1, h2⟩) | h
  · simp [isWordDash, h]
  · have halpha : c.isAlpha = true := by
      have hlow : c.isLower = true := by
        simp only [Char.isLower, Bool.and_eq_true, decide_eq_true_eq]
        exact ⟨h1, le_trans h2 (show ('f' : Char) ≤ 'z' from by decide)⟩
      simp [Char.isAlpha, hlow]
    simp [isWordDash, halpha]
  · simp [isWordDash, h]

/-- C8: for every UUID produced by the core (nonempty, hex digits and
dashes), the local-strategy reference `/generated-images/<uuid>.png`
embedded anywhere in a larger text is recovered exactly by the HTTP route's
extraction pattern `/\/generated-images\/[\w-]+\.png/g`. -/
theorem c8_extraction_round_trip (pre suf : List Char) (uuid : String)
    (hu : uuid.data ≠ []) (hc : ∀ c ∈ uuid.data, isUuidChar c = true) :
    ("/generated-images/" ++ uuid ++ ".png").data ∈
      extractImagePaths
        (pre ++ (("/generated-images/" ++ uuid ++ ".png").data ++ suf)) := by
  have hdata : ("/generated-images/" ++ uuid ++ ".png").data = localRef uuid.data := by
    simp [localRef, giLit, pngExt, String.data_append]
  rw [hdata]
  exact extract_contains_localRef pre.length pre suf uuid.data le_rfl hu
    (fun c hcm => uuidChar_isWordDash (hc c hcm))

/-- C8 witness: a concrete reference inside surrounding prose is recovered. -/
theorem c8_extraction_round_trip_witness :
    ("/generated-images/" ++ "ab-12" ++ ".png").data ∈
      extractImagePaths
        ("Here: ".data ++
          (("/generated-images/" ++ "ab-12" ++ ".png").data ++ " done".data)) :=
  c8_extraction_round_trip "Here: ".data " done".data "ab-12" (by decide) (by decide)
